import Mathlib

/-!
Verification of the query-synthesis and self-correction engine of the
chat-with-data application (Microsoft Fabric / Power BI backends).

The definitions below are shallow embeddings of the backend service code
documented in the repository (the `answer_with_self_correction` retry loop,
the `CacheManager.get_similar_query` similarity lookup, the
`FabricService.execute_query` row-capped executor, `validate_query`) and of
the frontend TypeScript (`EnhancedChatInterface.sendMessage`'s conversation
context update, `VirtualizedDataTable`'s cell rendering and CSV export).
-/

namespace ChatWithData

/-- Result dict returned by `_execute_query` in
`answer_with_self_correction`: a success flag and an error message
(`result["success"]`, `result["error"]`). -/
structure ExecResult where
  success : Bool
  error : String
deriving DecidableEq, Repr

/-- The value returned by `answer_with_self_correction`:
`_format_success_response(result)` on success,
`_format_error_response(attempts)` when the loop gives up, and `none` for
the (unreachable with `max_attempts = 3`) case of falling off the loop. -/
inductive RunResponse where
  | ok (query : String) (result : ExecResult)
  | exhausted
  | noResponse
deriving DecidableEq, Repr

/-- The `success` field of the formatted response dict: true only for the
success response. -/
def RunResponse.successFlag : RunResponse → Bool
  | .ok _ _ => true
  | .exhausted => false
  | .noResponse => false

/-- Observable trace of one orchestration run: the formatted response, the
list of query texts passed to `_execute_query` in order, and how many times
`_fix_query` (the QueryCorrector) was invoked. -/
structure RunTrace where
  response : RunResponse
  executed : List String
  fixCalls : Nat
deriving DecidableEq, Repr

/-- `max_attempts = 3` hard-coded at the top of
`answer_with_self_correction`. -/
def max_attempts : Nat := 3

/-- The body of the `for attempt in range(max_attempts)` loop of
`answer_with_self_correction`, indexed by the current `attempt` counter and
the number of remaining iterations.  Faithful to the source: each iteration
calls `self._generate_query(question)` afresh, executes the generated
query, returns the success response if it succeeded, and otherwise — when
`attempt < max_attempts - 1` — calls `self._fix_query(query, result["error"])`
(whose value the next iteration overwrites by regenerating) and continues;
on the last attempt it returns the error response. -/
def selfCorrectFrom (generate : String → String) (execute : String → ExecResult)
    (fix : String → String → String) (question : String) :
    Nat → Nat → RunTrace
  | _, 0 => ⟨.noResponse, [], 0⟩
  | attempt, remaining + 1 =>
    let query := generate question
    let result := execute query
    if result.success then
      ⟨.ok query result, [query], 0⟩
    else if attempt < max_attempts - 1 then
      let t := selfCorrectFrom generate execute fix question (attempt + 1) remaining
      ⟨t.response, query :: t.executed, t.fixCalls + 1⟩
    else
      ⟨.exhausted, [query], 0⟩

/-- `answer_with_self_correction(question)`: run the loop from
`attempt = 0` over `range(max_attempts)` iterations. -/
def answer_with_self_correction (generate : String → String)
    (execute : String → ExecResult) (fix : String → String → String)
    (question : String) : RunTrace :=
  selfCorrectFrom generate execute fix question 0 max_attempts

/-- Claim C1: for every question whose backend execution always returns an
execution error, the self-correcting orchestrator performs exactly
`max_attempts = 3` query executions — no more, no fewer — and returns the
exhausted error response with `success = false`. -/
theorem C1_bounded_attempts (generate : String → String)
    (execute : String → ExecResult) (fix : String → String → String)
    (question : String) (hfail : ∀ q, (execute q).success = false) :
    (answer_with_self_correction generate execute fix question).executed.length
        = max_attempts
      ∧ (answer_with_self_correction generate execute fix question).response
        = .exhausted
      ∧ (answer_with_self_correction generate execute fix question).response.successFlag
        = false := by
  simp [answer_with_self_correction, selfCorrectFrom, max_attempts, hfail,
    RunResponse.successFlag]

/-- Claim C1 witness: a concrete always-failing backend makes exactly three
executions and returns the exhausted response. -/
theorem C1_bounded_attempts_witness :
    (∀ q, ((fun _ : String => ExecResult.mk false "Invalid column name") q).success
        = false)
      ∧ ((answer_with_self_correction (fun _ => "SELECT TOP 5 * FROM Sales")
            (fun _ => ExecResult.mk false "Invalid column name")
            (fun q _ => q) "show sales").executed.length = max_attempts
          ∧ (answer_with_self_correction (fun _ => "SELECT TOP 5 * FROM Sales")
            (fun _ => ExecResult.mk false "Invalid column name")
            (fun q _ => q) "show sales").response = .exhausted
          ∧ (answer_with_self_correction (fun _ => "SELECT TOP 5 * FROM Sales")
            (fun _ => ExecResult.mk false "Invalid column name")
            (fun q _ => q) "show sales").response.successFlag = false) :=
  ⟨fun _ => rfl,
    C1_bounded_attempts (fun _ => "SELECT TOP 5 * FROM Sales")
      (fun _ => ExecResult.mk false "Invalid column name")
      (fun q _ => q) "show sales" (fun _ => rfl)⟩

/-- Claim C3 counterexample: with a corrector that returns the failed query
verbatim and an always-failing backend, the orchestrator does not detect the
no-op repair — it re-executes the unchanged query text on every attempt and
uses the full budget of `max_attempts = 3` executions, not strictly fewer. -/
theorem C3_noop_repair_counterexample :
    (answer_with_self_correction (fun _ => "SELECT Rev FROM Orders")
        (fun _ => ExecResult.mk false "Invalid column name Rev")
        (fun q _ => q) "total revenue").executed
      = ["SELECT Rev FROM Orders", "SELECT Rev FROM Orders",
          "SELECT Rev FROM Orders"]
    ∧ ¬ (answer_with_self_correction (fun _ => "SELECT Rev FROM Orders")
        (fun _ => ExecResult.mk false "Invalid column name Rev")
        (fun q _ => q) "total revenue").executed.length < max_attempts := by
  constructor
  · rfl
  · decide

/-- Claim C3 amended: the orchestrator performs no textual-identity check on
repairs.  When the corrector returns a query identical to the failed query
and the backend keeps failing, the same query text is executed exactly
`max_attempts` times (the loop even regenerates the query each iteration,
discarding the repair) and the run ends exhausted — never strictly fewer
executions. -/
theorem C3_noop_repair_amended (generate : String → String)
    (execute : String → ExecResult) (fix : String → String → String)
    (question : String) (hfail : ∀ q, (execute q).success = false)
    (_hnoop : ∀ q err, fix q err = q) :
    (answer_with_self_correction generate execute fix question).executed
        = List.replicate max_attempts (generate question)
      ∧ (answer_with_self_correction generate execute fix question).response
        = .exhausted := by
  simp [answer_with_self_correction, selfCorrectFrom, max_attempts, hfail,
    List.replicate]

/-- Claim C3 amended witness: concrete no-op corrector with an always-failing
backend executes the identical query three times. -/
theorem C3_noop_repair_amended_witness :
    (∀ q, ((fun _ : String => ExecResult.mk false "syntax error near FROM") q).success
        = false)
      ∧ (∀ (q err : String), (fun q1 (_ : String) => q1) q err = q)
      ∧ ((answer_with_self_correction (fun _ => "EVALUATE VALUES(Sales)")
            (fun _ => ExecResult.mk false "syntax error near FROM")
            (fun q _ => q) "list sales").executed
          = List.replicate max_attempts
              ((fun _ : String => "EVALUATE VALUES(Sales)") "list sales")
          ∧ (answer_with_self_correction (fun _ => "EVALUATE VALUES(Sales)")
            (fun _ => ExecResult.mk false "syntax error near FROM")
            (fun q _ => q) "list sales").response = .exhausted) :=
  ⟨fun _ => rfl, fun _ _ => rfl,
    C3_noop_repair_amended (fun _ => "EVALUATE VALUES(Sales)")
      (fun _ => ExecResult.mk false "syntax error near FROM")
      (fun q _ => q) "list sales" (fun _ => rfl) (fun _ _ => rfl)⟩

/-- Claim C5 counterexample: a backend whose every execution fails with a
connection error does not short-circuit the loop — the orchestrator still
invokes the corrector (`_fix_query`) twice and executes three times instead
of transitioning immediately to the exhausted response without correction. -/
theorem C5_connection_error_counterexample :
    (answer_with_self_correction (fun _ => "SELECT * FROM Customers")
        (fun _ => ExecResult.mk false "connection refused by server")
        (fun q _ => q) "list customers").fixCalls = 2
    ∧ ¬ (answer_with_self_correction (fun _ => "SELECT * FROM Customers")
        (fun _ => ExecResult.mk false "connection refused by server")
        (fun q _ => q) "list customers").fixCalls = 0
    ∧ (answer_with_self_correction (fun _ => "SELECT * FROM Customers")
        (fun _ => ExecResult.mk false "connection refused by server")
        (fun q _ => q) "list customers").executed.length = max_attempts := by
  refine ⟨rfl, ?_, rfl⟩
  decide

/-- Claim C5 amended: the retry loop never inspects the error content, so
every kind of execution failure — connection and permission errors
included — is fed through the correction loop: the corrector runs
`max_attempts - 1` times and the query is executed `max_attempts` times
before the run ends exhausted. -/
theorem C5_error_kinds_amended (generate : String → String)
    (execute : String → ExecResult) (fix : String → String → String)
    (question : String) (hfail : ∀ q, (execute q).success = false) :
    (answer_with_self_correction generate execute fix question).fixCalls
        = max_attempts - 1
      ∧ (answer_with_self_correction generate execute fix question).executed.length
        = max_attempts
      ∧ (answer_with_self_correction generate execute fix question).response
        = .exhausted := by
  simp [answer_with_self_correction, selfCorrectFrom, max_attempts, hfail]

/-- Claim C5 amended witness: a permission-denied backend still drives two
corrector calls and three executions. -/
theorem C5_error_kinds_amended_witness :
    (∀ q, ((fun _ : String => ExecResult.mk false "permission denied on table") q).success
        = false)
      ∧ ((answer_with_self_correction (fun _ => "SELECT * FROM Secrets")
            (fun _ => ExecResult.mk false "permission denied on table")
            (fun q _ => q) "show secrets").fixCalls = max_attempts - 1
          ∧ (answer_with_self_correction (fun _ => "SELECT * FROM Secrets")
            (fun _ => ExecResult.mk false "permission denied on table")
            (fun q _ => q) "show secrets").executed.length = max_attempts
          ∧ (answer_with_self_correction (fun _ => "SELECT * FROM Secrets")
            (fun _ => ExecResult.mk false "permission denied on table")
            (fun q _ => q) "show secrets").response = .exhausted) :=
  ⟨fun _ => rfl,
    C5_error_kinds_amended (fun _ => "SELECT * FROM Secrets")
      (fun _ => ExecResult.mk false "permission denied on table")
      (fun q _ => q) "show secrets" (fun _ => rfl)⟩

/-- A cached value of `CacheManager.query_cache`: the response dict stored
for a prior question.  Per the caching-strategy documentation the query
similarity cache holds "Similar queries and results", i.e. the full prior
response, rows included. -/
structure CachedResponse where
  success : Bool
  answer : String
  query : String
  data : List (List String)
deriving DecidableEq, Repr

/-- `self.similarity_threshold = 0.8` in `CacheManager.__init__`. -/
def similarity_threshold : ℚ := 4 / 5

/-- `CacheManager.get_similar_query(question)`: iterate over
`self.query_cache.items()` in insertion order, compute
`self._calculate_similarity(question, cached_q)` (the similarity measure is
abstract here), and return the first stored result whose similarity is
strictly greater than `self.similarity_threshold`; otherwise `None`. -/
def get_similar_query (calcSimilarity : String → String → ℚ)
    (query_cache : List (String × CachedResponse)) (question : String) :
    Option CachedResponse :=
  match query_cache with
  | [] => none
  | (cached_q, result) :: rest =>
    if calcSimilarity question cached_q > similarity_threshold then some result
    else get_similar_query calcSimilarity rest question

/-- A concrete stored cache entry carrying result rows, used to exhibit that
the similarity cache stores (and serves) the answer rows themselves. -/
def cachedTopCustomers : CachedResponse :=
  { success := true
    answer := "The top customers are Alice and Bob."
    query := "SELECT TOP 2 Name, Revenue FROM Customers ORDER BY Revenue DESC"
    data := [["Alice", "100"], ["Bob", "90"]] }

/-- Claim C2 counterexample: the similarity cache stores the full prior
response and a hit returns it verbatim — the returned rows come straight
from the cache (the lookup involves no backend execution at all), so the
cache remembers the answer rows, not merely how to ask. -/
theorem C2_cache_rows_counterexample :
    get_similar_query (fun _ _ => 1)
        [("top two customers by revenue", cachedTopCustomers)]
        "top 2 customers by revenue" = some cachedTopCustomers
      ∧ cachedTopCustomers.data = [["Alice", "100"], ["Bob", "90"]]
      ∧ cachedTopCustomers.data ≠ [] := by
  refine ⟨?_, rfl, by simp [cachedTopCustomers]⟩
  simp [get_similar_query, similarity_threshold]
  norm_num

/-- Claim C2 amended: a similarity-cache hit returns a stored cached
response verbatim — rows included — namely the first stored entry whose
similarity to the incoming question is strictly above the 0.8 threshold;
the documented lookup performs no re-execution against the live backend. -/
theorem C2_cache_hit_amended (calcSimilarity : String → String → ℚ)
    (query_cache : List (String × CachedResponse)) (question : String)
    (r : CachedResponse)
    (h : get_similar_query calcSimilarity query_cache question = some r) :
    ∃ cached_q, (cached_q, r) ∈ query_cache
      ∧ calcSimilarity question cached_q > similarity_threshold := by
  induction query_cache with
  | nil => simp [get_similar_query] at h
  | cons p rest ih =>
    obtain ⟨cached_q, result⟩ := p
    by_cases hsim : calcSimilarity question cached_q > similarity_threshold
    · simp only [get_similar_query, if_pos hsim, Option.some.injEq] at h
      exact ⟨cached_q, by simp [h], hsim⟩
    · simp only [get_similar_query, if_neg hsim] at h
      obtain ⟨cq, hmem, hgt⟩ := ih h
      exact ⟨cq, List.mem_cons_of_mem _ hmem, hgt⟩

/-- Claim C2 amended witness: a concrete hit returns the stored entry,
whose rows are exactly the stored rows. -/
theorem C2_cache_hit_amended_witness :
    get_similar_query (fun _ _ => 1)
        [("show my best customers", cachedTopCustomers)]
        "show the best customers" = some cachedTopCustomers
      ∧ ∃ cached_q,
          (cached_q, cachedTopCustomers)
              ∈ [("show my best customers", cachedTopCustomers)]
            ∧ (fun (_ _ : String) => (1 : ℚ)) "show the best customers" cached_q
              > similarity_threshold := by
  have h : get_similar_query (fun _ _ => 1)
      [("show my best customers", cachedTopCustomers)]
      "show the best customers" = some cachedTopCustomers := by
    simp [get_similar_query, similarity_threshold]
    norm_num
  exact ⟨h, C2_cache_hit_amended (fun _ _ => 1)
    [("show my best customers", cachedTopCustomers)]
    "show the best customers" cachedTopCustomers h⟩

/-- Claim C6 counterexample: a similarity of exactly 0.8 is a miss, because
`get_similar_query` uses a strict comparison against
`similarity_threshold`; the claim's boundary case (≥ 0.8 is a hit) fails. -/
theorem C6_threshold_boundary_counterexample :
    get_similar_query (fun _ _ => similarity_threshold)
        [("show all customers",
          CachedResponse.mk true "All customers listed." "SELECT * FROM Customers"
            [["Alice"]])]
        "list all customers" = none
      ∧ similarity_threshold ≥ similarity_threshold := by
  constructor
  · simp [get_similar_query]
  · exact le_refl _

/-- Claim C6 amended: the similarity-cache lookup reports a hit exactly when
some stored fingerprint has similarity strictly greater than the configured
threshold 0.8; similarity exactly equal to 0.8 does not count as a hit. -/
theorem C6_threshold_amended (calcSimilarity : String → String → ℚ)
    (query_cache : List (String × CachedResponse)) (question : String) :
    (get_similar_query calcSimilarity query_cache question).isSome = true
      ↔ ∃ p ∈ query_cache, calcSimilarity question p.1 > similarity_threshold := by
  induction query_cache with
  | nil => simp [get_similar_query]
  | cons p rest ih =>
    obtain ⟨cached_q, result⟩ := p
    by_cases hsim : calcSimilarity question cached_q > similarity_threshold
    · simp [get_similar_query, if_pos hsim, hsim]
    · simp [get_similar_query, if_neg hsim, ih, hsim]

/-- `limit: int = 100`, the default row cap of
`FabricService.execute_query(self, query, limit=100)`; the `/api/fabric/query`
endpoint documents the same default (`default: 100, max: 1000`). -/
def fabric_default_limit : Nat := 100

/-- The normalized response shape of `FabricService.execute_query` /
`/api/fabric/query`: returned rows are capped at `limit` (`row_count` is the
displayed, limited count) while `total_rows` reports the full count, as in
the documented response (`"total_rows": 150, "row_count": 100`). -/
structure QueryResponse where
  success : Bool
  data : List (List String)
  row_count : Nat
  total_rows : Nat
deriving DecidableEq, Repr

namespace FabricService

/-- `FabricService.execute_query(query, limit)`: execute and return at most
`limit` rows of the backend's result, reporting the uncapped total.  The
backend's full result set is passed explicitly as `allRows`. -/
def execute_query (allRows : List (List String)) (limit : Nat) : QueryResponse :=
  { success := true
    data := allRows.take limit
    row_count := (allRows.take limit).length
    total_rows := allRows.length }

end FabricService

/-- Claim C7 counterexample: the default row cap is 100, not 1000 — on a
150-row backend result the executor called with its default limit returns
only 100 rows, where a 1000-row default cap would have returned all 150. -/
theorem C7_default_cap_counterexample :
    fabric_default_limit = 100 ∧ fabric_default_limit ≠ 1000
      ∧ (FabricService.execute_query (List.replicate 150 ["r"])
          fabric_default_limit).data.length = 100
      ∧ ¬ (FabricService.execute_query (List.replicate 150 ["r"])
          fabric_default_limit).data.length = 150 := by
  refine ⟨rfl, by decide, ?_, ?_⟩ <;>
    simp [FabricService.execute_query, fabric_default_limit]

/-- Claim C7 amended: the executor enforces a row cap on the returned result
whose default value is 100 rows (the API accepts limits up to 1000), and the
reported total row count may exceed the number of rows actually returned —
strictly so whenever the backend result is larger than the limit. -/
theorem C7_row_cap_amended (allRows : List (List String)) (limit : Nat) :
    fabric_default_limit = 100
      ∧ (FabricService.execute_query allRows limit).data.length ≤ limit
      ∧ (FabricService.execute_query allRows limit).total_rows = allRows.length
      ∧ (limit < allRows.length →
          (FabricService.execute_query allRows limit).data.length
            < (FabricService.execute_query allRows limit).total_rows) := by
  refine ⟨rfl, ?_, rfl, ?_⟩
  · simp [FabricService.execute_query]
  · intro hlt
    simp [FabricService.execute_query]
    omega

/-- Claim C7 amended witness: three backend rows with limit 2 — two rows
returned, total reported 3, strictly more than returned. -/
theorem C7_row_cap_amended_witness :
    fabric_default_limit = 100
      ∧ (FabricService.execute_query [["a"], ["b"], ["c"]] 2).data.length ≤ 2
      ∧ (FabricService.execute_query [["a"], ["b"], ["c"]] 2).total_rows = 3
      ∧ (FabricService.execute_query [["a"], ["b"], ["c"]] 2).data.length
        < (FabricService.execute_query [["a"], ["b"], ["c"]] 2).total_rows := by
  have h := C7_row_cap_amended [["a"], ["b"], ["c"]] 2
  exact ⟨h.1, h.2.1, by
    have := h.2.2.1
    simpa using this, h.2.2.2 (by decide)⟩

/-- JavaScript `prev.slice(-2)`: the last two elements of the array (all of
them when it has fewer than two). -/
def sliceLastTwo (l : List String) : List String :=
  l.drop (l.length - 2)

/-- The context update of `sendMessage` in `EnhancedChatInterface.tsx`:
`setConversationContext(prev => [...prev.slice(-2), contextEntry])`. -/
def appendContextEntry (prev : List String) (entry : String) : List String :=
  sliceLastTwo prev ++ [entry]

/-- Claim C4: the conversation context never holds more than its fixed
capacity of 3 entries; appending at capacity evicts exactly the oldest
entry; and after 4 successful turns starting from the empty context, the
context holds the 3 most recent entries in order, omitting the oldest. -/
theorem C4_context_capacity :
    (∀ (prev : List String) (e : String), (appendContextEntry prev e).length ≤ 3)
      ∧ (∀ (a b c e : String), appendContextEntry [a, b, c] e = [b, c, e])
      ∧ (∀ (e1 e2 e3 e4 : String),
          appendContextEntry
              (appendContextEntry (appendContextEntry (appendContextEntry [] e1) e2) e3)
              e4
            = [e2, e3, e4]) := by
  refine ⟨?_, fun a b c e => rfl, fun e1 e2 e3 e4 => rfl⟩
  intro prev e
  simp only [appendContextEntry, sliceLastTwo, List.length_append,
    List.length_drop, List.length_cons, List.length_nil]
  omega

/-- The fields of the `/api/chat/unified` response that `sendMessage` reads
when updating the conversation context: `result.success`, `result.query`,
`result.query_language` (the latter two may be absent or empty). -/
structure ChatResult where
  success : Bool
  query : Option String
  query_language : Option String
deriving DecidableEq, Repr

/-- JavaScript truthiness of a string-or-absent value (`result.query` in
`if (result.success && result.query)`): absent and the empty string are
falsy. -/
def stringTruthy : Option String → Bool
  | none => false
  | some s => !s.isEmpty

/-- JavaScript `v || dflt` for a string-or-absent value, as in
`result.query_language || 'Query'`. -/
def jsOrDefault (v : Option String) (dflt : String) : String :=
  match v with
  | none => dflt
  | some s => if s.isEmpty then dflt else s

/-- The template literal
`` `Q: ${question}\n${result.query_language || 'Query'}: ${result.query}` ``
(at the point it is built, `result.query` is truthy, hence present). -/
def contextEntryText (question : String) (r : ChatResult) : String :=
  "Q: " ++ question ++ "\n" ++ jsOrDefault r.query_language "Query" ++ ": "
    ++ (match r.query with
        | some s => s
        | none => "undefined")

/-- `sendMessage`'s conversation-context update, guarded by
`if (result.success && result.query)`. -/
def updateConversationContext (ctx : List String) (question : String)
    (r : ChatResult) : List String :=
  if r.success && stringTruthy r.query then
    appendContextEntry ctx (contextEntryText question r)
  else ctx

/-- Claim C8: a context entry is appended if and only if the turn's result
has `success = true` and carries a (non-empty) final query; on a failed
turn, or a turn without a final query, the conversation context is left
unchanged. -/
theorem C8_context_append_iff :
    (∀ (ctx : List String) (question : String) (r : ChatResult),
        r.success = false → updateConversationContext ctx question r = ctx)
      ∧ (∀ (ctx : List String) (question : String) (r : ChatResult),
          r.query = none → updateConversationContext ctx question r = ctx)
      ∧ (∀ (ctx : List String) (question : String) (r : ChatResult),
          r.query = some "" → updateConversationContext ctx question r = ctx)
      ∧ (∀ (ctx : List String) (question : String) (r : ChatResult)
          (s : String), r.success = true → r.query = some s → s ≠ "" →
          updateConversationContext ctx question r
            = appendContextEntry ctx (contextEntryText question r)) := by
  refine ⟨?_, ?_, ?_, ?_⟩
  · intro ctx question r h
    simp [updateConversationContext, h]
  · intro ctx question r h
    simp [updateConversationContext, h, stringTruthy]
  · intro ctx question r h
    simp [updateConversationContext, h, stringTruthy]
    intro _ hfalse
    exact absurd hfalse (by decide)
  · intro ctx question r s hs hq hne
    have hie : s.isEmpty = false := by
      cases hb : s.isEmpty
      · rfl
      · exact absurd ((String.isEmpty_iff s).mp hb) hne
    simp [updateConversationContext, hs, stringTruthy, hq, hie]

/-- Claim C8 witness: a failed turn leaves the context unchanged, while a
successful turn with a final query appends its entry. -/
theorem C8_context_append_iff_witness :
    updateConversationContext ["old entry"] "how many orders"
        (ChatResult.mk false (some "SELECT COUNT(*) FROM Orders") none)
      = ["old entry"]
    ∧ updateConversationContext ["old entry"] "how many orders"
        (ChatResult.mk true (some "SELECT COUNT(*) FROM Orders") (some "T-SQL"))
      = appendContextEntry ["old entry"]
          (contextEntryText "how many orders"
            (ChatResult.mk true (some "SELECT COUNT(*) FROM Orders") (some "T-SQL"))) :=
  ⟨C8_context_append_iff.1 ["old entry"] "how many orders"
      (ChatResult.mk false (some "SELECT COUNT(*) FROM Orders") none) rfl,
    C8_context_append_iff.2.2.2 ["old entry"] "how many orders"
      (ChatResult.mk true (some "SELECT COUNT(*) FROM Orders") (some "T-SQL"))
      "SELECT COUNT(*) FROM Orders" rfl rfl (by decide)⟩

/-- Whitespace characters removed by Python's `str.strip()`. -/
def pyIsSpace (c : Char) : Bool :=
  c == ' ' || c == '\t' || c == '\n' || c == '\r'

/-- Python `str.strip()`: remove leading and trailing whitespace. -/
def pyStrip (s : String) : String :=
  String.mk (((s.toList.dropWhile pyIsSpace).reverse.dropWhile pyIsSpace).reverse)

/-- Python `str.upper()` (ASCII case-folding, as used on query text). -/
def pyUpper (s : String) : String :=
  String.mk (s.toList.map Char.toUpper)

/-- Boolean prefix test on character lists (Python `str.startswith`). -/
def isPrefixCharList : List Char → List Char → Bool
  | [], _ => true
  | _ :: _, [] => false
  | a :: as, b :: bs => a == b && isPrefixCharList as bs

/-- Boolean substring test on character lists (Python `needle in hay`). -/
def containsSub (needle : List Char) : List Char → Bool
  | [] => needle.isEmpty
  | c :: rest => isPrefixCharList needle (c :: rest) || containsSub needle rest

/-- Python `needle in hay` on strings. -/
def strContains (hay needle : String) : Bool :=
  containsSub needle.toList hay.toList

/-- Python `hay.startswith(needle)` on strings. -/
def strStartsWith (hay needle : String) : Bool :=
  isPrefixCharList needle.toList hay.toList

/-- The `dangerous_keywords` list of `validate_query`. -/
def dangerous_keywords : List String :=
  ["DROP", "DELETE", "UPDATE", "INSERT", "TRUNCATE"]

/-- `validate_query(query, query_type)`: an `sql` query passes when no
dangerous keyword occurs as a substring of `query.upper()`; a `dax` query
passes when `query.strip().upper().startswith("EVALUATE")`; any other
query type yields Python's falsy `None`, modelled as `false`. -/
def validate_query (query : String) (query_type : String) : Bool :=
  if query_type = "sql" then
    ! dangerous_keywords.any (fun keyword => strContains (pyUpper query) keyword)
  else if query_type = "dax" then
    strStartsWith (pyUpper (pyStrip query)) "EVALUATE"
  else false

/-- A Boolean prefix test succeeds exactly when the larger list is the
candidate prefix followed by some tail. -/
theorem isPrefixCharList_iff_append (p l : List Char) :
    isPrefixCharList p l = true ↔ ∃ t, l = p ++ t := by
  induction p generalizing l with
  | nil => simp [isPrefixCharList]
  | cons a as ih =>
    cases l with
    | nil =>
      simp [isPrefixCharList]
    | cons b bs =>
      simp only [isPrefixCharList, Bool.and_eq_true, beq_iff_eq, ih,
        List.cons_append, List.cons.injEq]
      constructor
      · rintro ⟨hab, t, ht⟩
        exact ⟨t, hab.symm, ht⟩
      · rintro ⟨t, hab, ht⟩
        exact ⟨hab.symm, t, ht⟩

/-- Claim C9: `validate_query` accepts a `dax` query exactly when its
whitespace-trimmed text starts, case-insensitively, with `EVALUATE`; it
accepts an `sql` query exactly when its upper-cased text contains none of
the dangerous keywords as a substring — so a query naming the column
`LastUpdated` is rejected, since its upper-casing contains `UPDATE`. -/
theorem C9_validate_query (q : String) :
    (validate_query q "dax" = true
        ↔ ∃ t, (pyUpper (pyStrip q)).toList = "EVALUATE".toList ++ t)
      ∧ (validate_query q "sql" = true
          ↔ ∀ keyword ∈ dangerous_keywords, strContains (pyUpper q) keyword = false)
      ∧ validate_query "SELECT LastUpdated FROM Sales" "sql" = false
      ∧ strContains (pyUpper "SELECT LastUpdated FROM Sales") "UPDATE" = true
      ∧ validate_query "  evaluate VALUES(Customer)  " "dax" = true
      ∧ validate_query "SELECT TOP 5 Name FROM Customers" "dax" = false := by
  refine ⟨?_, ?_, by decide, by decide, by decide, by decide⟩
  · have hform : validate_query q "dax"
        = strStartsWith (pyUpper (pyStrip q)) "EVALUATE" := by
      simp [validate_query]
    rw [hform, strStartsWith]
    exact isPrefixCharList_iff_append _ _
  · have hform : validate_query q "sql"
        = ! dangerous_keywords.any (fun keyword => strContains (pyUpper q) keyword) := by
      simp [validate_query]
    rw [hform]
    simp [List.any_eq_false]

/-- Claim C9 witness: instantiated at the `LastUpdated` query, the `sql`
characterization rejects it because `UPDATE` occurs in its upper-casing. -/
theorem C9_validate_query_witness :
    ((validate_query "SELECT LastUpdated FROM Sales" "sql" = true
        ↔ ∀ keyword ∈ dangerous_keywords,
            strContains (pyUpper "SELECT LastUpdated FROM Sales") keyword = false)
      ∧ validate_query "SELECT LastUpdated FROM Sales" "sql" = false)
    ∧ (validate_query "EVALUATE VALUES(Sales)" "dax" = true
        ↔ ∃ t, (pyUpper (pyStrip "EVALUATE VALUES(Sales)")).toList
            = "EVALUATE".toList ++ t) :=
  ⟨⟨(C9_validate_query "SELECT LastUpdated FROM Sales").2.1,
      (C9_validate_query "SELECT LastUpdated FROM Sales").2.2.1⟩,
    (C9_validate_query "EVALUATE VALUES(Sales)").1⟩

/-- JavaScript values as they occur in result-row cells. -/
inductive JSValue where
  | num (n : Int)
  | str (s : String)
  | bool (b : Bool)
  | null
  | undefined
deriving DecidableEq, Repr

/-- JavaScript falsiness: `0`, `''`, `false`, `null` and `undefined` are
falsy. -/
def jsFalsy : JSValue → Bool
  | .num n => n == 0
  | .str s => s.isEmpty
  | .bool b => !b
  | .null => true
  | .undefined => true

/-- JavaScript `value || ''`: the value itself when truthy, otherwise the
empty string. -/
def jsOrEmpty (v : JSValue) : JSValue :=
  if jsFalsy v then .str "" else v

/-- JavaScript `String(v)`. -/
def jsToString : JSValue → String
  | .num n => toString n
  | .str s => s
  | .bool b => if b then "true" else "false"
  | .null => "null"
  | .undefined => "undefined"

/-- The cell text `String(row[col] || '')` used both by the `Row` renderer
of `VirtualizedDataTable` and by `exportToCSV`. -/
def renderCell (v : JSValue) : String :=
  jsToString (jsOrEmpty v)

/-- Double every double-quote character (`.replace(/"/g, '""')`). -/
def escQuotes : List Char → List Char
  | [] => []
  | c :: rest => if c == '"' then '"' :: '"' :: escQuotes rest else c :: escQuotes rest

/-- One CSV cell as built by `exportToCSV`:
`` `"${String(row[col] || '').replace(/"/g, '""')}"` ``. -/
def csvCell (v : JSValue) : String :=
  "\"" ++ String.mk (escQuotes (renderCell v).toList) ++ "\""

/-- JavaScript property access `row[col]` on a row object: `undefined` when
the column is absent. -/
def rowGet (row : List (String × JSValue)) (col : String) : JSValue :=
  match row.find? (fun p => p.1 == col) with
  | some p => p.2
  | none => .undefined

/-- One CSV data line of `exportToCSV`:
`columns.map(col => ...).join(',')`. -/
def csvLine (columns : List String) (row : List (String × JSValue)) : String :=
  String.intercalate "," (columns.map (fun col => csvCell (rowGet row col)))

/-- Claim C10: every JavaScript-falsy cell value — the number 0, `false`,
`null`, and the empty string — is rendered in the data table and exported to
CSV as the empty string, so a numeric zero is indistinguishable from a
missing value in both the displayed table and the exported CSV file. -/
theorem C10_falsy_cells_blank :
    (∀ v : JSValue, jsFalsy v = true → renderCell v = "")
      ∧ renderCell (.num 0) = ""
      ∧ renderCell (.num 0) = renderCell .undefined
      ∧ csvCell (.num 0) = csvCell .null
      ∧ csvLine ["Amount"] [("Amount", .num 0)] = csvLine ["Amount"] [] := by
  refine ⟨?_, by decide, by decide, by decide, by decide⟩
  intro v hv
  simp [renderCell, jsOrEmpty, hv, jsToString]

/-- Claim C10 witness: the falsy-cell rule applied at the concrete value 0
and at `false`. -/
theorem C10_falsy_cells_blank_witness :
    (jsFalsy (.num 0) = true ∧ renderCell (.num 0) = "")
      ∧ (jsFalsy (.bool false) = true ∧ renderCell (.bool false) = "") :=
  ⟨⟨rfl, C10_falsy_cells_blank.1 (.num 0) rfl⟩,
    ⟨rfl, C10_falsy_cells_blank.1 (.bool false) rfl⟩⟩

end ChatWithData
